import Mathlib

/-!
Verification of the entitlement-reconciler and feature-gate logic of the
"Fecha Instalação" application, shallowly embedded from the Python source.

Embedded source files:
  * `app/services/budget_service.py`   — `can_create_budget`, free-tier ceiling
  * `app/modules/premium_gate/services.py` — `get_gate_info`
  * `app/routes/app.py`                — `budgets_new_post`
  * `main.py`                          — the premium-gate middleware around
                                         `POST /app/budgets/new`
  * `app/routes/kiwify_webhook.py`     — HMAC-signed webhook variant
  * `app/routes/webhook.py`            — legacy shared-secret webhook variant

Database rows are modelled as lists of records; SQLAlchemy queries
(`find by primary key`, `find by email`, `count budgets of user`) become
list operations.  The HMAC-SHA256 primitive from Python's `hmac`/`hashlib`
is an external library call and is modelled as an opaque function parameter
`hmacHex : String → String → String` (secret, raw body ↦ hex digest); every
theorem below holds for an arbitrary such function.
-/

set_option autoImplicit false

namespace FechaInstalacao

/-- Row of the `users` table (`app/models/user.py`): primary key `id`,
unique `email`, entitlement flag `is_pro`. -/
structure UserRec where
  id : Nat
  email : String
  is_pro : Bool
  deriving Repr, DecidableEq

/-- Row of the `budgets` table (`app/models/budget.py`), restricted to the
columns the reconciler/gate logic reads: primary key and owner. -/
structure BudgetRec where
  id : Nat
  user_id : Nat
  deriving Repr, DecidableEq

/-- The relational state the two components read and write. -/
structure DB where
  users : List UserRec
  budgets : List BudgetRec
  deriving Repr, DecidableEq

/-- `db.get(User, uid)` — lookup by primary key. -/
def findUserById (db : DB) (uid : Nat) : Option UserRec :=
  db.users.find? (fun u => u.id == uid)

/-- `db.scalar(select(User).where(User.email == email))` — first row with
the given email (emails are unique by schema). -/
def findUserByEmail (db : DB) (e : String) : Option UserRec :=
  db.users.find? (fun u => u.email == e)

/-- `db.scalar(select(func.count()).select_from(Budget).where(Budget.user_id == uid))`. -/
def countBudgets (db : DB) (uid : Nat) : Nat :=
  (db.budgets.filter (fun b => b.user_id == uid)).length

/-! ### budget_service.py -/

/-- `FREE_LIMIT_TOTAL_BUDGETS = 10` (`app/services/budget_service.py`). -/
def FREE_LIMIT_TOTAL_BUDGETS : Nat := 10

/-- Python `x or 0` applied to the result of the count query: a `None`
scalar (query yielded no value) is coerced to `0`. -/
def pyOrZero : Option Nat → Nat
  | none => 0
  | some n => n

/-- `can_create_budget(db, user)` from `app/services/budget_service.py`.
The count query's result is passed in as `scalar` (`none` models the query
yielding no value); `pro` is `user.is_pro`.  Source:

    if user.is_pro: return True, -1
    total = db.scalar(select(func.count(Budget.id)).where(...)) or 0
    if total >= FREE_LIMIT_TOTAL_BUDGETS: return False, total
    return True, total
-/
def can_create_budget (scalar : Option Nat) (pro : Bool) : Bool × Int :=
  if pro then (true, -1)
  else
    let total := pyOrZero scalar
    if FREE_LIMIT_TOTAL_BUDGETS ≤ total then (false, (total : Int))
    else (true, (total : Int))

/-! ### premium_gate/services.py -/

/-- The `PremiumGateInfo` dataclass.  `remaining` is `Optional[int]`. -/
structure PremiumGateInfo where
  is_pro : Bool
  total_budgets : Nat
  limit : Nat
  remaining : Option Int
  near_limit : Bool
  at_limit : Bool
  deriving Repr, DecidableEq

/-- `get_gate_info(user_id)` from `app/modules/premium_gate/services.py`:
user not found ⇒ full free allowance; pro ⇒ no ceiling; otherwise
`remaining = max(0, FREE_LIMIT_TOTAL_BUDGETS - total)`,
`near_limit = (remaining > 0 and remaining <= 2)`,
`at_limit = (remaining == 0)`. -/
def get_gate_info (db : DB) (user_id : Nat) : PremiumGateInfo :=
  match findUserById db user_id with
  | none =>
      ⟨false, 0, FREE_LIMIT_TOTAL_BUDGETS, some (FREE_LIMIT_TOTAL_BUDGETS : Int),
        false, false⟩
  | some user =>
      let total := countBudgets db user_id
      if user.is_pro then
        ⟨true, total, FREE_LIMIT_TOTAL_BUDGETS, none, false, false⟩
      else
        let remaining : Int := max 0 ((FREE_LIMIT_TOTAL_BUDGETS : Int) - (total : Int))
        ⟨false, total, FREE_LIMIT_TOTAL_BUDGETS, some remaining,
          decide (0 < remaining ∧ remaining ≤ 2), decide (remaining = 0)⟩

/-! ### routes/app.py — budgets_new_post, and the middleware of main.py -/

/-- Python truthiness of a non-empty tuple: always `true`.  The route
handler writes `if not can_create_budget(db, user):` although
`can_create_budget` returns a 2-tuple, so the tested value is this
truthiness, never the boolean inside the tuple. -/
def pyTruthyPair (_ : Bool × Int) : Bool := true

/-- Responses `budgets_new_post` can produce. -/
inductive PostResponse where
  /-- `redirect("/login", ...)` — session user no longer exists. -/
  | redirectLogin
  /-- `redirect("/app/upgrade", kind="error", message="Você atingiu o limite ...")`. -/
  | redirectUpgrade
  /-- `redirect("/app", kind="success", message="Orçamento criado com sucesso!")`. -/
  | redirectSuccess
  deriving Repr, DecidableEq

/-- `budgets_new_post` (`app/routes/app.py`, `POST /app/budgets/new`),
form fields elided; `newId` is the primary key the insert assigns.
Faithful to the source, the limit branch tests
`not can_create_budget(db, user)` on the returned *tuple*. -/
def budgets_new_post (db : DB) (uid : Nat) (newId : Nat) : PostResponse × DB :=
  match findUserById db uid with
  | none => (.redirectLogin, db)
  | some user =>
      if pyTruthyPair (can_create_budget (some (countBudgets db uid)) user.is_pro) = false then
        (.redirectUpgrade, db)
      else
        (.redirectSuccess, ⟨db.users, db.budgets ++ [⟨newId, uid⟩]⟩)

/-- Response of the request pipeline for `POST /app/budgets/new`. -/
inductive PipelineResponse where
  /-- The premium-gate middleware's 403 `premium_gate/limit.html` page. -/
  | limitPage403
  /-- The middleware passed the request through to `budgets_new_post`. -/
  | handler (r : PostResponse)
  deriving Repr, DecidableEq

/-- The `premium_gate_middleware` of `main.py` composed with the route
handler, specialised to `POST /app/budgets/new` with a valid session for
`uid`: the middleware computes `get_gate_info uid` and short-circuits with
the 403 limit page when `(not info.is_pro) and info.at_limit`; otherwise
the request reaches `budgets_new_post`. -/
def premium_gate_pipeline (db : DB) (uid : Nat) (newId : Nat) : PipelineResponse × DB :=
  let info := get_gate_info db uid
  if (!info.is_pro) && info.at_limit then
    (.limitPage403, db)
  else
    let r := budgets_new_post db uid newId
    (.handler r.1, r.2)

/-! ### Minimal JSON values, string utilities (routes/kiwify_webhook.py) -/

/-- Whitespace in the sense of Python `str.strip` (ASCII cases). -/
def isSpaceChar (c : Char) : Bool :=
  c == ' ' || c == '\t' || c == '\n' || c == '\r'

/-- Python `s.strip()` — drop leading and trailing whitespace. -/
def strTrim (s : String) : String :=
  String.mk (((s.toList.dropWhile isSpaceChar).reverse.dropWhile isSpaceChar).reverse)

/-- Python `s.lower()` (ASCII case folding, character by character). -/
def strLower (s : String) : String :=
  String.mk (s.toList.map Char.toLower)

/-- JSON values as far as the webhook extraction logic inspects them:
strings, objects, anything else. -/
inductive Json where
  | str (s : String)
  | obj (fields : List (String × Json))
  | other
  deriving Repr

/-- `payload.get(k)` restricted to objects (`isinstance(cur, dict) and k in cur`). -/
def jsonGet (j : Json) (k : String) : Option Json :=
  match j with
  | .obj fields => (fields.find? (fun p => p.1 == k)).map (fun p => p.2)
  | _ => none

/-- Walk a nested key path, failing when a key is absent or the current
value is not an object. -/
def getPath (j : Json) : List String → Option Json
  | [] => some j
  | k :: ks =>
      match jsonGet j k with
      | some v => getPath v ks
      | none => none

/-- `needle` matches at the head of `hay` (character-wise). -/
def headMatch : List Char → List Char → Bool
  | [], _ => true
  | _ :: _, [] => false
  | a :: as, b :: bs => a == b && headMatch as bs

/-- `needle` occurs somewhere inside `hay`. -/
def hasSub (needle : List Char) : List Char → Bool
  | [] => headMatch needle []
  | c :: rest => headMatch needle (c :: rest) || hasSub needle rest

/-- Python's `sub in s` on strings. -/
def strContains (s sub : String) : Bool := hasSub sub.toList s.toList

/-! ### routes/kiwify_webhook.py — HMAC-signed webhook variant -/

/-- `_get_signature_from_headers`: probe the candidate header names in
order; header keys were lowercased by the caller.  Absent headers read as
the empty string (falsy). -/
def lookupHeader (headers : List (String × String)) (k : String) : String :=
  match headers.find? (fun p => p.1 == k) with
  | some p => p.2
  | none => ""

/-- Ordered candidate signature header names of `_get_signature_from_headers`. -/
def sigHeaderCandidates : List String :=
  ["x-kiwify-signature", "x-signature", "x-hub-signature-256", "kiwify-signature"]

/-- `_get_signature_from_headers(headers)`. -/
def get_signature_from_headers (headers : List (String × String)) : String :=
  match sigHeaderCandidates.find? (fun k => lookupHeader headers k != "") with
  | some k => strTrim (lookupHeader headers k)
  | none => ""

/-- Characters after the first `=` of `s` (Python `s.split("=", 1)[1]`;
only reached when `s` starts with `sha256=`). -/
def afterFirstEq (s : String) : String :=
  match s.toList.dropWhile (fun c => c != '=') with
  | [] => ""
  | _ :: rest => String.mk rest

/-- `_normalize_sig`: strip an optional `sha256=` tag. -/
def normalize_sig (sig : String) : String :=
  if headMatch "sha256=".toList (strLower sig).toList then strTrim (afterFirstEq sig)
  else strTrim sig

/-- `_verify_signature(raw_body, secret, header_sig)`; `hmacHex` stands for
`hmac.new(secret, raw_body, sha256).hexdigest()` and `compare_digest` is
string equality. -/
def verify_signature (hmacHex : String → String → String)
    (raw : String) (secret : String) (header_sig : String) : Bool :=
  if secret == "" then false
  else hmacHex secret raw == normalize_sig header_sig

/-- Ordered email probing paths of `_extract_email`. -/
def emailPaths : List (List String) :=
  [["customer", "email"], ["Customer", "email"],
   ["buyer", "email"], ["Buyer", "email"], ["email"]]

/-- One probing path of `_extract_email`: succeed when the path resolves
to a string containing `@`, yielding it stripped and lowercased. -/
def emailPathHit (payload : Json) (path : List String) : Option String :=
  match getPath payload path with
  | some (.str s) => if s.toList.contains '@' then some (strLower (strTrim s)) else none
  | _ => none

/-- `_extract_email(payload)` — first path that hits wins. -/
def extract_email (payload : Json) : Option String :=
  (emailPaths.filterMap (emailPathHit payload)).head?

/-- Ordered status keys of `_extract_status`. -/
def statusKeys : List String :=
  ["status", "order_status", "payment_status", "subscription_status", "event", "type"]

/-- One key probe of `_extract_status`: a present, non-empty string value. -/
def statusKeyHit (payload : Json) (k : String) : Option String :=
  match jsonGet payload k with
  | some (.str v) => if strTrim v == "" then none else some (strLower (strTrim v))
  | _ => none

/-- `_extract_status(payload)` — first present non-empty string value,
else `""`. -/
def extract_status (payload : Json) : String :=
  ((statusKeys.filterMap (statusKeyHit payload)).head?).getD ""

/-- The activate vocabulary of `_status_to_pro`, checked first. -/
def activateWords : List String :=
  ["paid", "approved", "aprov", "active", "ativa", "completed", "success"]

/-- The deactivate vocabulary of `_status_to_pro`, checked second. -/
def deactivateWords : List String :=
  ["refunded", "refund", "chargeback", "canceled", "cancelled",
   "expired", "inactive", "falha", "failed"]

/-- `_status_to_pro(status)`: substring matching, activate list first. -/
def status_to_pro (status : String) : Option Bool :=
  let s := strLower status
  if activateWords.any (fun x => strContains s x) then some true
  else if deactivateWords.any (fun x => strContains s x) then some false
  else none

/-- `user.is_pro = v; db.commit()` on the row the email query returned:
the first list entry with that email is updated, all others kept. -/
def setFirstMatch : List UserRec → String → Bool → List UserRec
  | [], _, _ => []
  | u :: rest, e, v =>
      if u.email == e then ⟨u.id, u.email, v⟩ :: rest
      else u :: setFirstMatch rest e v

/-- The reconciler's single write: set `is_pro` of the account with the
given email. -/
def setProByEmail (db : DB) (e : String) (v : Bool) : DB :=
  ⟨setFirstMatch db.users e v, db.budgets⟩

/-- The JSON body each webhook returns, reduced to the fields the claims
inspect: HTTP status code, the `ok` flag, the `error`/`message`/`reason`
string (empty when the body carries none), and the reported `is_pro`. -/
structure HttpResp where
  status_code : Nat
  ok : Bool
  tag : String
  is_pro : Option Bool
  deriving Repr, DecidableEq

/-- Configuration of the HMAC webhook variant: `KIWIFY_WEBHOOK_SECRET`,
`KIWIFY_ALLOW_UNSIGNED_WEBHOOKS == "1"`, and the HMAC-SHA256 primitive. -/
structure KiwifyEnv where
  secret : String
  allow_unsigned : Bool
  hmacHex : String → String → String

/-- An inbound webhook request: raw body, headers with lowercased keys,
and the JSON parse of the body (`none` = malformed). -/
structure KiwifyReq where
  raw : String
  headers : List (String × String)
  json : Option Json

/-- `kiwify_webhook` from `app/routes/kiwify_webhook.py`
(`POST /webhooks/kiwify`): signature gates, JSON parse, email/status
extraction, classification, and the single `is_pro` write. -/
def kiwify_webhook (env : KiwifyEnv) (req : KiwifyReq) (db : DB) : HttpResp × DB :=
  if !env.allow_unsigned && (get_signature_from_headers req.headers == "") then
    (⟨401, false, "missing_signature", none⟩, db)
  else if !env.allow_unsigned &&
      !(verify_signature env.hmacHex req.raw env.secret (get_signature_from_headers req.headers)) then
    (⟨401, false, "invalid_signature", none⟩, db)
  else
    match req.json with
    | none => (⟨400, false, "invalid_json", none⟩, db)
    | some payload =>
        match extract_email payload, status_to_pro (extract_status payload) with
        | none, _ => (⟨400, false, "missing_email", none⟩, db)
        | some _, none => (⟨200, true, "event_ignored", none⟩, db)
        | some email, some d =>
            match findUserByEmail db email with
            | none => (⟨200, true, "user_not_found", none⟩, db)
            | some _ => (⟨200, true, "", some d⟩, setProByEmail db email d)

/-- Both signature gates of `kiwify_webhook` pass: unsigned mode, or a
non-empty signature header that verifies. -/
def authPasses (env : KiwifyEnv) (req : KiwifyReq) : Bool :=
  env.allow_unsigned ||
    (get_signature_from_headers req.headers != "" &&
      verify_signature env.hmacHex req.raw env.secret (get_signature_from_headers req.headers))

/-- `N`-fold application of the webhook with the same request
(provider retries / duplicate notifications). -/
def applyWebhookN (env : KiwifyEnv) (req : KiwifyReq) (db : DB) : Nat → DB
  | 0 => db
  | n + 1 => (kiwify_webhook env req (applyWebhookN env req db n)).2

/-! ### routes/webhook.py — legacy shared-secret webhook variant -/

/-- An inbound request to the legacy endpoint: the `secret` query
parameter, the `x-kiwify-secret` header (both `""` when absent), and the
parsed JSON body. -/
structure LegacyReq where
  query_secret : String
  header_secret : String
  json : Json

/-- `_get_secret_from_request`: query parameter first, then header. -/
def get_secret_from_request (r : LegacyReq) : String :=
  if strTrim r.query_secret != "" then strTrim r.query_secret
  else if strTrim r.header_secret != "" then strTrim r.header_secret
  else ""

/-- Python `a or b` on strings: first non-empty wins. -/
def pyOrStr (a b : String) : String := if a != "" then a else b

/-- `payload.get(k)` when a string, else Python-falsy `""`. -/
def legacyGetStr (j : Json) (k : String) : String :=
  match jsonGet j k with
  | some (.str s) => s
  | _ => ""

/-- `(payload.get(k1, {}) or {}).get(k2)` when a string, else `""`. -/
def legacyGetStr2 (j : Json) (k1 k2 : String) : String :=
  match jsonGet j k1 with
  | some inner => legacyGetStr inner k2
  | none => ""

/-- Email extraction of the legacy endpoint:
`customer.email or buyer.email or email`, stripped and lowercased. -/
def legacy_extract_email (payload : Json) : String :=
  strLower (strTrim (pyOrStr (legacyGetStr2 payload "customer" "email")
    (pyOrStr (legacyGetStr2 payload "buyer" "email")
      (legacyGetStr payload "email"))))

/-- Status extraction of the legacy endpoint:
`status or payment_status or order.status`, stripped and lowercased. -/
def legacy_extract_status (payload : Json) : String :=
  strLower (strTrim (pyOrStr (legacyGetStr payload "status")
    (pyOrStr (legacyGetStr payload "payment_status")
      (legacyGetStr2 payload "order" "status"))))

/-- `paid_keywords` of the legacy endpoint. -/
def paid_keywords : List String :=
  ["paid", "approved", "aprovado", "pago", "completed", "success"]

/-- `kiwify_webhook` from `app/routes/webhook.py` (`POST /webhook/kiwify`,
the variant `main.py` actually mounts): shared-secret check, 500 when the
secret is unconfigured, activate-only vocabulary, and — per the source
comment — *assume paid* when no status is present. -/
def legacy_webhook (expected_secret : String) (r : LegacyReq) (db : DB) : HttpResp × DB :=
  let received := get_secret_from_request r
  let expected := strTrim expected_secret
  if expected == "" then
    (⟨500, false, "KIWIFY_WEBHOOK_SECRET não configurado no .env", none⟩, db)
  else if received == "" || received != expected then
    (⟨401, false, "unauthorized", none⟩, db)
  else
    let email := legacy_extract_email r.json
    let status := legacy_extract_status r.json
    if email == "" then
      (⟨200, true, "missing_email", none⟩, db)
    else
      let is_paid :=
        if status != "" then paid_keywords.any (fun k => strContains status k) else true
      if !is_paid then
        (⟨200, true, "not_paid:" ++ status, none⟩, db)
      else
        match findUserByEmail db email with
        | none => (⟨200, true, "user_not_found", none⟩, db)
        | some _ => (⟨200, true, "pro_activated_for:" ++ email, none⟩, setProByEmail db email true)

/-! ## Concrete states and requests used by witnesses and counterexamples -/

/-- A non-entitled account holding exactly `FREE_LIMIT_TOTAL_BUDGETS` budgets. -/
def atLimitDB : DB :=
  ⟨[⟨1, "u@x.com", false⟩], (List.range 10).map (fun i => ⟨i + 1, 1⟩)⟩

/-- A non-entitled account holding 8 budgets (two short of the ceiling). -/
def nearLimitDB : DB :=
  ⟨[⟨1, "n@x.com", false⟩], (List.range 8).map (fun i => ⟨i + 1, 1⟩)⟩

/-- A single non-entitled account. -/
def freeUserDB : DB := ⟨[⟨1, "a@b.com", false⟩], []⟩

/-- A single entitled account. -/
def proUserDB : DB := ⟨[⟨1, "a@b.com", true⟩], []⟩

/-- No accounts, no budgets. -/
def emptyDB : DB := ⟨[], []⟩

/-- HMAC-variant configuration with the unsigned escape hatch enabled. -/
def unsignedEnv : KiwifyEnv := ⟨"sek", true, fun _ _ => ""⟩

/-! ## Helper lemmas -/

/-- Updating the first account with a given email commutes with looking
that email up: the lookup returns the updated row. -/
theorem find_email_setFirstMatch (us : List UserRec) (e : String) (v : Bool) :
    (setFirstMatch us e v).find? (fun u => u.email == e)
      = (us.find? (fun u => u.email == e)).map (fun u => ⟨u.id, u.email, v⟩) := by
  induction us with
  | nil => rfl
  | cons u rest ih =>
      cases hb : (u.email == e) with
      | false => simp [setFirstMatch, List.find?, hb, ih]
      | true => simp [setFirstMatch, List.find?, hb]

/-- Writing the same email twice keeps only the last write. -/
theorem setFirstMatch_last_write (us : List UserRec) (e : String) (v w : Bool) :
    setFirstMatch (setFirstMatch us e v) e w = setFirstMatch us e w := by
  induction us with
  | nil => rfl
  | cons u rest ih =>
      cases hb : (u.email == e) with
      | false => simp [setFirstMatch, hb, ih]
      | true => simp [setFirstMatch, hb]

/-- Accounts whose email differs from the written one keep their row,
position by position. -/
theorem get_setFirstMatch_of_ne (us : List UserRec) (e : String) (v : Bool) :
    ∀ i u, us.get? i = some u → (u.email == e) = false →
      (setFirstMatch us e v).get? i = some u := by
  induction us with
  | nil => intro i u h _; simp at h
  | cons hd rest ih =>
      intro i u h hne
      cases hb : (hd.email == e) with
      | false =>
          cases i with
          | zero => simpa [setFirstMatch, hb] using h
          | succ n =>
              simp only [setFirstMatch, hb, if_neg Bool.false_ne_true]
              exact ih n u (by simpa using h) hne
      | true =>
          cases i with
          | zero =>
              simp at h
              rw [h] at hb
              rw [hb] at hne
              cases hne
          | succ n => simpa [setFirstMatch, hb] using h

/-- When `authPasses` holds, both signature gates of `kiwify_webhook`
evaluate to `false`. -/
theorem auth_gates_of_authPasses (env : KiwifyEnv) (req : KiwifyReq)
    (ha : authPasses env req = true) :
    (!env.allow_unsigned && (get_signature_from_headers req.headers == "")) = false ∧
    (!env.allow_unsigned &&
      !(verify_signature env.hmacHex req.raw env.secret
          (get_signature_from_headers req.headers))) = false := by
  unfold authPasses at ha
  cases h : env.allow_unsigned with
  | true => simp [h]
  | false =>
      rw [h] at ha
      simp only [Bool.false_or, Bool.and_eq_true, bne_iff_ne, ne_eq] at ha
      simp [h, ha.1, ha.2]

/-- An authenticated notification with an email, a recognised status and a
matching account performs exactly the single classified write. -/
theorem kiwify_webhook_applied (env : KiwifyEnv) (req : KiwifyReq) (db : DB)
    (p : Json) (e : String) (d : Bool) (u : UserRec)
    (ha : authPasses env req = true) (hj : req.json = some p)
    (he : extract_email p = some e) (hd : status_to_pro (extract_status p) = some d)
    (hu : findUserByEmail db e = some u) :
    kiwify_webhook env req db = (⟨200, true, "", some d⟩, setProByEmail db e d) := by
  obtain ⟨h1, h2⟩ := auth_gates_of_authPasses env req ha
  unfold kiwify_webhook
  simp [h1, h2, hj, he, hd, hu]

/-! ## Claims -/

/-- Claim C10 (confirmed): for every user id matching no account, the gate
returns the full free-tier allowance: `is_pro = false`, `total_budgets = 0`,
`remaining = 10`, `near_limit = false`, `at_limit = false`. -/
theorem C10_unknown_user_full_allowance (db : DB) (uid : Nat)
    (h : findUserById db uid = none) :
    get_gate_info db uid
      = ⟨false, 0, FREE_LIMIT_TOTAL_BUDGETS, some (FREE_LIMIT_TOTAL_BUDGETS : Int),
          false, false⟩ := by
  unfold get_gate_info
  rw [h]

/-- Witness for C10 at the empty database. -/
theorem C10_witness :
    findUserById emptyDB 7 = none ∧
    get_gate_info emptyDB 7 = ⟨false, 0, 10, some 10, false, false⟩ :=
  ⟨rfl, C10_unknown_user_full_allowance emptyDB 7 rfl⟩

/-- Claim C8 (corrected): when the count query yields no value for a
non-entitled account, `can_create_budget` coerces the count to `0`
(`... or 0`) and returns `(True, 0)` — it permits creation (fails open)
instead of blocking it. -/
theorem C8_undetermined_count_allows : can_create_budget none false = (true, 0) := by
  decide

/-- Counterexample for C8 as stated: with an undetermined count the check
does not block creation. -/
theorem C8_counterexample : (can_create_budget none false).1 ≠ false := by decide

/-- Claim C3 (confirmed): for an existing account, the gate record has
`remaining = none`, `near_limit = false`, `at_limit = false` when
entitled; otherwise `remaining = max 0 (10 - c)`, `near_limit` iff
`0 < remaining ≤ 2`, and `at_limit` iff `remaining = 0`, where `c` is the
account's budget count. -/
theorem C3_gate_decision_fields (db : DB) (uid : Nat) (u : UserRec)
    (hu : findUserById db uid = some u) :
    (u.is_pro = true →
      (get_gate_info db uid).remaining = none ∧
      (get_gate_info db uid).near_limit = false ∧
      (get_gate_info db uid).at_limit = false) ∧
    (u.is_pro = false →
      (get_gate_info db uid).remaining
          = some (max 0 (10 - (countBudgets db uid : Int))) ∧
      ((get_gate_info db uid).near_limit = true ↔
        0 < max 0 (10 - (countBudgets db uid : Int)) ∧
          max 0 (10 - (countBudgets db uid : Int)) ≤ 2) ∧
      ((get_gate_info db uid).at_limit = true ↔
        max 0 (10 - (countBudgets db uid : Int)) = 0)) := by
  unfold get_gate_info
  rw [hu]
  cases hp : u.is_pro <;> simp [hp, FREE_LIMIT_TOTAL_BUDGETS]

/-- Witness for C3: 8 budgets give `near_limit` with `remaining = 2`;
10 budgets give `at_limit` with `remaining = 0`. -/
theorem C3_witness :
    (findUserById nearLimitDB 1 = some ⟨1, "n@x.com", false⟩ ∧
      (get_gate_info nearLimitDB 1).remaining = some 2 ∧
      (get_gate_info nearLimitDB 1).near_limit = true) ∧
    (findUserById atLimitDB 1 = some ⟨1, "u@x.com", false⟩ ∧
      (get_gate_info atLimitDB 1).remaining = some 0 ∧
      (get_gate_info atLimitDB 1).at_limit = true) := by
  have h8 := (C3_gate_decision_fields nearLimitDB 1 ⟨1, "n@x.com", false⟩ (by decide)).2 rfl
  have h10 := (C3_gate_decision_fields atLimitDB 1 ⟨1, "u@x.com", false⟩ (by decide)).2 rfl
  refine ⟨⟨by decide, ?_, ?_⟩, ⟨by decide, ?_, ?_⟩⟩
  · rw [h8.1]; decide
  · exact h8.2.1.mpr (by decide)
  · rw [h10.1]; decide
  · exact h10.2.2.mpr (by decide)

/-- Claim C1 (corrected): for a non-entitled account at or over the
ceiling, the request pipeline refuses the POST — the premium-gate
middleware intercepts it with the 403 limit page and no record is
persisted; the refusal is not the upgrade-page redirect of the route
handler, whose own limit check (`if not can_create_budget(...)` on a
tuple) never fires, so the handler alone would persist the record and
return the success redirect. -/
theorem C1_limit_refused_by_middleware (db : DB) (uid newId : Nat) (u : UserRec)
    (hu : findUserById db uid = some u) (hp : u.is_pro = false)
    (hc : 10 ≤ countBudgets db uid) :
    premium_gate_pipeline db uid newId = (PipelineResponse.limitPage403, db) ∧
    budgets_new_post db uid newId
      = (PostResponse.redirectSuccess, ⟨db.users, db.budgets ++ [⟨newId, uid⟩]⟩) := by
  have h1 : (get_gate_info db uid).is_pro = false := by
    unfold get_gate_info
    rw [hu]
    simp [hp]
  have h2 : (get_gate_info db uid).at_limit = true := by
    unfold get_gate_info
    rw [hu]
    simp [hp, FREE_LIMIT_TOTAL_BUDGETS]
    omega
  constructor
  · unfold premium_gate_pipeline
    simp [h1, h2]
  · unfold budgets_new_post
    rw [hu]
    simp [pyTruthyPair]

/-- Counterexample for C1 as stated: at the ceiling the pipeline's refusal
is not a redirect to the upgrade page, and the cited route handler, taken
by itself, persists an 11th budget and returns the success redirect. -/
theorem C1_counterexample :
    (premium_gate_pipeline atLimitDB 1 11).1
        ≠ PipelineResponse.handler PostResponse.redirectUpgrade ∧
    (budgets_new_post atLimitDB 1 11).1 = PostResponse.redirectSuccess ∧
    (budgets_new_post atLimitDB 1 11).2.budgets.length = 11 := by decide

/-- Witness for C1 at a concrete at-limit state. -/
theorem C1_witness :
    findUserById atLimitDB 1 = some ⟨1, "u@x.com", false⟩ ∧
    10 ≤ countBudgets atLimitDB 1 ∧
    premium_gate_pipeline atLimitDB 1 11 = (PipelineResponse.limitPage403, atLimitDB) := by
  refine ⟨by decide, by decide, ?_⟩
  exact (C1_limit_refused_by_middleware atLimitDB 1 11 ⟨1, "u@x.com", false⟩
    (by decide) rfl (by decide)).1

/-- A notification whose status is exactly `"inactive"`, addressed to the
entitled account of `proUserDB`. -/
def inactiveReq : KiwifyReq :=
  ⟨"", [], some (Json.obj [("email", Json.str "a@b.com"), ("status", Json.str "inactive")])⟩

/-- Claim C2 (code bug): evaluating the code at the failing input — the
activate check runs first and `"active"` is a substring of `"inactive"`,
so `_status_to_pro "inactive"` yields the activate decision and the
webhook leaves the entitled account's flag `true` instead of setting it
to `false`; the `"inactive"` entry of the deactivate vocabulary is
unreachable. -/
theorem C2_inactive_treated_as_activate :
    status_to_pro "inactive" = some true ∧
    (kiwify_webhook unsignedEnv inactiveReq proUserDB).1.is_pro = some true ∧
    (kiwify_webhook unsignedEnv inactiveReq proUserDB).2.users
      = [⟨1, "a@b.com", true⟩] := by decide

/-- Claim C4 (confirmed): with unsigned mode disabled, a request without a
signature header, or whose computed HMAC digest differs from the
`sha256=`-stripped signature value, is answered 401 with `ok = false` and
no database change. -/
theorem C4_unauthorized_no_state_change (env : KiwifyEnv) (req : KiwifyReq) (db : DB)
    (hns : env.allow_unsigned = false)
    (hbad : get_signature_from_headers req.headers = "" ∨
      env.hmacHex env.secret req.raw
        ≠ normalize_sig (get_signature_from_headers req.headers)) :
    (kiwify_webhook env req db).1.status_code = 401 ∧
    (kiwify_webhook env req db).1.ok = false ∧
    (kiwify_webhook env req db).2 = db := by
  unfold kiwify_webhook
  rcases hbad with h | h
  · simp [hns, h]
  · cases hsig : (get_signature_from_headers req.headers == "") with
    | true => simp [hns, hsig]
    | false =>
        have hv : verify_signature env.hmacHex req.raw env.secret
            (get_signature_from_headers req.headers) = false := by
          unfold verify_signature
          cases hs : (env.secret == "") with
          | true => simp [hs]
          | false => simp [hs, h]
        simp [hns, hsig, hv]

/-- A request carrying no signature header at all. -/
def noSigReq : KiwifyReq := ⟨"body", [], some (Json.obj [("email", Json.str "a@b.com")])⟩

/-- HMAC-variant configuration in signed mode with a configured secret. -/
def signedEnv : KiwifyEnv := ⟨"s", false, fun _ _ => "aa"⟩

/-- Witness for C4: a signature-less request in signed mode. -/
theorem C4_witness :
    signedEnv.allow_unsigned = false ∧
    get_signature_from_headers noSigReq.headers = "" ∧
    (kiwify_webhook signedEnv noSigReq freeUserDB).1.status_code = 401 ∧
    (kiwify_webhook signedEnv noSigReq freeUserDB).2 = freeUserDB := by
  have h := C4_unauthorized_no_state_change signedEnv noSigReq freeUserDB rfl
    (Or.inl (by decide))
  exact ⟨rfl, by decide, h.1, h.2.2⟩

/-- Claim C7 (corrected): with the shared secret unconfigured, the legacy
endpoint answers 500 and changes nothing for every request; the HMAC
endpoint in signed mode instead answers 401 (an empty secret can never
verify) and changes nothing. -/
theorem C7_unconfigured_secret_responses
    (r : LegacyReq) (db : DB) (env : KiwifyEnv) (req : KiwifyReq) (db2 : DB)
    (hs : env.secret = "") (hu : env.allow_unsigned = false) :
    legacy_webhook "" r db
      = (⟨500, false, "KIWIFY_WEBHOOK_SECRET não configurado no .env", none⟩, db) ∧
    (kiwify_webhook env req db2).1.status_code = 401 ∧
    (kiwify_webhook env req db2).2 = db2 := by
  constructor
  · unfold legacy_webhook
    simp [strTrim]
  · have hv : verify_signature env.hmacHex req.raw env.secret
        (get_signature_from_headers req.headers) = false := by
      unfold verify_signature
      simp [hs]
    unfold kiwify_webhook
    cases hsig : (get_signature_from_headers req.headers == "") with
    | true => simp [hu, hsig]
    | false => simp [hu, hsig, hv]

/-- A request presenting a signature header while the secret is empty. -/
def emptySecretEnv : KiwifyEnv := ⟨"", false, fun _ _ => "d"⟩

/-- A request that carries a signature header. -/
def signedHeaderReq : KiwifyReq := ⟨"b", [("x-signature", "abc")], some (Json.obj [])⟩

/-- Counterexample for C7 as stated: while the secret is unconfigured, a
request to the HMAC webhook endpoint is answered 401, not 500. -/
theorem C7_counterexample :
    emptySecretEnv.secret = "" ∧
    (kiwify_webhook emptySecretEnv signedHeaderReq freeUserDB).1.status_code = 401 ∧
    (kiwify_webhook emptySecretEnv signedHeaderReq freeUserDB).1.status_code ≠ 500 := by
  decide

/-- Witness for C7 at a concrete request for each endpoint. -/
theorem C7_witness :
    emptySecretEnv.secret = "" ∧ emptySecretEnv.allow_unsigned = false ∧
    legacy_webhook "" ⟨"q", "", Json.obj []⟩ freeUserDB
      = (⟨500, false, "KIWIFY_WEBHOOK_SECRET não configurado no .env", none⟩, freeUserDB) ∧
    (kiwify_webhook emptySecretEnv noSigReq freeUserDB).1.status_code = 401 := by
  have h := C7_unconfigured_secret_responses ⟨"q", "", Json.obj []⟩ freeUserDB
    emptySecretEnv noSigReq freeUserDB rfl rfl
  exact ⟨rfl, rfl, h.1, h.2.1⟩

/-- The two rejection gates of the legacy endpoint pass for a request
presenting the configured (non-empty) secret. -/
theorem legacy_auth_gates (secret : String) (r : LegacyReq)
    (hsec : strTrim secret ≠ "") (hr : get_secret_from_request r = strTrim secret) :
    ((strTrim secret == "") = false) ∧
    ((get_secret_from_request r == ""
        || get_secret_from_request r != strTrim secret) = false) := by
  constructor
  · exact beq_eq_false_iff_ne.mpr hsec
  · rw [hr]
    simp [hsec]

/-- Claim C5 (corrected): for authenticated notifications with an
extractable email, the HMAC endpoint acknowledges an absent-or-unmatched
status as `event_ignored` with no state change; the legacy endpoint does
not use the spec's vocabularies but its own paid-keyword list — a present
status containing no paid keyword is acknowledged `not_paid:<status>`
with no state change, while an absent status, or one containing a paid
keyword (such as `pago`, which matches neither spec vocabulary),
activates the matching account. -/
theorem C5_unknown_status_ignored
    (env : KiwifyEnv) (req : KiwifyReq) (db : DB) (p : Json) (e : String)
    (secret : String) (r : LegacyReq) (db2 : DB)
    (secret2 : String) (r2 : LegacyReq) (db3 : DB) (u : UserRec)
    (ha : authPasses env req = true) (hj : req.json = some p)
    (he : extract_email p = some e)
    (hd : status_to_pro (extract_status p) = none)
    (hsec : strTrim secret ≠ "")
    (hr : get_secret_from_request r = strTrim secret)
    (hle : legacy_extract_email r.json ≠ "")
    (hls : legacy_extract_status r.json ≠ "")
    (hlp : paid_keywords.any (fun k => strContains (legacy_extract_status r.json) k)
        = false)
    (hsec2 : strTrim secret2 ≠ "")
    (hr2 : get_secret_from_request r2 = strTrim secret2)
    (hle2 : legacy_extract_email r2.json ≠ "")
    (hpay : legacy_extract_status r2.json = "" ∨
      paid_keywords.any (fun k => strContains (legacy_extract_status r2.json) k)
        = true)
    (hu : findUserByEmail db3 (legacy_extract_email r2.json) = some u) :
    kiwify_webhook env req db = (⟨200, true, "event_ignored", none⟩, db) ∧
    legacy_webhook secret r db2
      = (⟨200, true, "not_paid:" ++ legacy_extract_status r.json, none⟩, db2) ∧
    legacy_webhook secret2 r2 db3
      = (⟨200, true, "pro_activated_for:" ++ legacy_extract_email r2.json, none⟩,
          setProByEmail db3 (legacy_extract_email r2.json) true) := by
  obtain ⟨h1, h2⟩ := auth_gates_of_authPasses env req ha
  obtain ⟨g1, g2⟩ := legacy_auth_gates secret r hsec hr
  obtain ⟨k1, k2⟩ := legacy_auth_gates secret2 r2 hsec2 hr2
  refine ⟨?_, ?_, ?_⟩
  · unfold kiwify_webhook
    simp [h1, h2, hj, he, hd]
  · unfold legacy_webhook
    simp [g1, g2, hle, hls, hlp]
  · unfold legacy_webhook
    rcases hpay with hempty | hany
    · simp [k1, k2, hle2, hempty, hu]
    · simp [k1, k2, hle2, hany, hu]

/-- A legacy-endpoint notification that authenticates but carries no
status field at all. -/
def noStatusLegacyReq : LegacyReq := ⟨"s", "", Json.obj [("email", Json.str "a@b.com")]⟩

/-- A legacy-variant notification with status `pago`: outside both spec
vocabularies, but inside the legacy endpoint's own paid-keyword list. -/
def pagoLegacyReq : LegacyReq :=
  ⟨"s", "", Json.obj [("email", Json.str "a@b.com"), ("status", Json.str "pago")]⟩

/-- Counterexample for C5 as stated: two authenticated notifications whose
status matches neither spec vocabulary make the legacy endpoint activate
the matching account instead of leaving entitlement unchanged — one with
the status absent, one with the status `pago` (classified by neither
vocabulary, yet a word of the endpoint's own paid-keyword list). -/
theorem C5_counterexample :
    (legacy_extract_status noStatusLegacyReq.json = "" ∧
      (legacy_webhook "s" noStatusLegacyReq freeUserDB).2.users
        = [⟨1, "a@b.com", true⟩]) ∧
    (status_to_pro "pago" = none ∧
      legacy_extract_status pagoLegacyReq.json = "pago" ∧
      (legacy_webhook "s" pagoLegacyReq freeUserDB).2.users
        = [⟨1, "a@b.com", true⟩] ∧
      (legacy_webhook "s" pagoLegacyReq freeUserDB).2 ≠ freeUserDB) := by decide

/-- An HMAC-variant notification with status `trial_started`. -/
def trialReq : KiwifyReq :=
  ⟨"", [], some (Json.obj [("email", Json.str "a@b.com"), ("status", Json.str "trial_started")])⟩

/-- A legacy-variant notification with status `trial_started`. -/
def trialLegacyReq : LegacyReq :=
  ⟨"s", "", Json.obj [("email", Json.str "x@y.com"), ("status", Json.str "trial_started")]⟩

/-- Witness for C5: `trial_started` notifications on both endpoints, and a
`pago` notification on the legacy endpoint. -/
theorem C5_witness :
    status_to_pro "trial_started" = none ∧
    kiwify_webhook unsignedEnv trialReq freeUserDB
      = (⟨200, true, "event_ignored", none⟩, freeUserDB) ∧
    legacy_webhook "s" trialLegacyReq freeUserDB
      = (⟨200, true, "not_paid:trial_started", none⟩, freeUserDB) ∧
    legacy_webhook "s" pagoLegacyReq freeUserDB
      = (⟨200, true, "pro_activated_for:a@b.com", none⟩,
          setProByEmail freeUserDB "a@b.com" true) := by
  have h := C5_unknown_status_ignored unsignedEnv trialReq freeUserDB
    (Json.obj [("email", Json.str "a@b.com"), ("status", Json.str "trial_started")])
    "a@b.com" "s" trialLegacyReq freeUserDB "s" pagoLegacyReq freeUserDB
    ⟨1, "a@b.com", false⟩
    (by decide) rfl (by decide) (by decide) (by decide) (by decide) (by decide)
    (by decide) (by decide) (by decide) (by decide) (by decide)
    (Or.inr (by decide)) (by decide)
  exact ⟨by decide, h.1, h.2.1, h.2.2⟩

/-- Claim C6 (corrected): an authenticated notification with no
extractable email changes no account state on either endpoint; the HMAC
endpoint rejects it 400 as the claim states, but the legacy endpoint
acknowledges it 200 with `ok = true` and reason `missing_email`. -/
theorem C6_missing_email_responses
    (env : KiwifyEnv) (req : KiwifyReq) (db : DB) (p : Json)
    (secret : String) (r : LegacyReq) (db2 : DB)
    (ha : authPasses env req = true) (hj : req.json = some p)
    (he : extract_email p = none)
    (hsec : strTrim secret ≠ "")
    (hr : get_secret_from_request r = strTrim secret)
    (hle : legacy_extract_email r.json = "") :
    kiwify_webhook env req db = (⟨400, false, "missing_email", none⟩, db) ∧
    legacy_webhook secret r db2 = (⟨200, true, "missing_email", none⟩, db2) := by
  obtain ⟨h1, h2⟩ := auth_gates_of_authPasses env req ha
  obtain ⟨g1, g2⟩ := legacy_auth_gates secret r hsec hr
  constructor
  · unfold kiwify_webhook
    simp [h1, h2, hj, he]
  · unfold legacy_webhook
    simp [g1, g2, hle]

/-- A legacy-endpoint request whose JSON body holds no email at all. -/
def emptyBodyLegacyReq : LegacyReq := ⟨"s", "", Json.obj []⟩

/-- Counterexample for C6 as stated: the legacy endpoint answers a
missing-email notification with 200 and `ok = true`, not with a 400
client error. -/
theorem C6_counterexample :
    legacy_extract_email emptyBodyLegacyReq.json = "" ∧
    (legacy_webhook "s" emptyBodyLegacyReq freeUserDB).1.status_code = 200 ∧
    (legacy_webhook "s" emptyBodyLegacyReq freeUserDB).1.ok = true := by decide

/-- An HMAC-variant notification carrying a status but no email. -/
def noEmailReq : KiwifyReq := ⟨"", [], some (Json.obj [("status", Json.str "paid")])⟩

/-- Witness for C6 at concrete email-less notifications on both endpoints. -/
theorem C6_witness :
    extract_email (Json.obj [("status", Json.str "paid")]) = none ∧
    kiwify_webhook unsignedEnv noEmailReq freeUserDB
      = (⟨400, false, "missing_email", none⟩, freeUserDB) ∧
    legacy_webhook "s" emptyBodyLegacyReq freeUserDB
      = (⟨200, true, "missing_email", none⟩, freeUserDB) := by
  have h := C6_missing_email_responses unsignedEnv noEmailReq freeUserDB
    (Json.obj [("status", Json.str "paid")]) "s" emptyBodyLegacyReq freeUserDB
    (by decide) rfl (by decide) (by decide) (by decide) (by decide)
  exact ⟨by decide, h.1, h.2⟩

/-- Looking up the written email after the write returns the updated row. -/
theorem findUserByEmail_setProByEmail (db : DB) (e : String) (v : Bool) :
    findUserByEmail (setProByEmail db e v) e
      = (findUserByEmail db e).map (fun u => ⟨u.id, u.email, v⟩) := by
  unfold findUserByEmail setProByEmail
  exact find_email_setFirstMatch db.users e v

/-- Writing the same email twice keeps only the last write (lifted to `DB`). -/
theorem setProByEmail_last_write (db : DB) (e : String) (v w : Bool) :
    setProByEmail (setProByEmail db e v) e w = setProByEmail db e w := by
  unfold setProByEmail
  simp [setFirstMatch_last_write]

/-- Applying the same authenticated activate notification `n + 1` times
ends, for every `n`, in exactly the once-written state. -/
theorem applyWebhookN_activate (env : KiwifyEnv) (req : KiwifyReq) (db : DB)
    (p : Json) (e : String) (u : UserRec)
    (ha : authPasses env req = true) (hj : req.json = some p)
    (he : extract_email p = some e) (hd : status_to_pro (extract_status p) = some true)
    (hu : findUserByEmail db e = some u) :
    ∀ n, applyWebhookN env req db (n + 1) = setProByEmail db e true := by
  intro n
  induction n with
  | zero =>
      show (kiwify_webhook env req (applyWebhookN env req db 0)).2 = _
      rw [show applyWebhookN env req db 0 = db from rfl,
        kiwify_webhook_applied env req db p e true u ha hj he hd hu]
  | succ m ih =>
      show (kiwify_webhook env req (applyWebhookN env req db (m + 1))).2 = _
      rw [ih]
      have hu2 : findUserByEmail (setProByEmail db e true) e
          = some ⟨u.id, u.email, true⟩ := by
        rw [findUserByEmail_setProByEmail, hu]
        rfl
      rw [kiwify_webhook_applied env req (setProByEmail db e true) p e true
        ⟨u.id, u.email, true⟩ ha hj he hd hu2]
      exact setProByEmail_last_write db e true true

/-- Claim C9 (confirmed): applying an authenticated activate notification
for account `e` any `N ≥ 1` times leaves the database in exactly the
once-activated state and the matched account entitled; the sequence
activate, deactivate, activate ends in the activated state; and every
account with a different email keeps its row, position by position. -/
theorem C9_idempotent_and_reversible
    (env : KiwifyEnv) (req dreq : KiwifyReq) (db : DB) (p dp : Json) (e : String)
    (u : UserRec) (N : Nat)
    (ha : authPasses env req = true) (hj : req.json = some p)
    (he : extract_email p = some e) (hd : status_to_pro (extract_status p) = some true)
    (ha2 : authPasses env dreq = true) (hj2 : dreq.json = some dp)
    (he2 : extract_email dp = some e) (hd2 : status_to_pro (extract_status dp) = some false)
    (hu : findUserByEmail db e = some u) (hN : 1 ≤ N) :
    applyWebhookN env req db N = setProByEmail db e true ∧
    (findUserByEmail (applyWebhookN env req db N) e).map (fun w => w.is_pro)
      = some true ∧
    (kiwify_webhook env req (kiwify_webhook env dreq (kiwify_webhook env req db).2).2).2
      = setProByEmail db e true ∧
    (∀ i w, db.users.get? i = some w → w.email ≠ e →
      (applyWebhookN env req db N).users.get? i = some w) := by
  obtain ⟨n, rfl⟩ : ∃ n, N = n + 1 := ⟨N - 1, by omega⟩
  have hmain := applyWebhookN_activate env req db p e u ha hj he hd hu n
  refine ⟨hmain, ?_, ?_, ?_⟩
  · rw [hmain, findUserByEmail_setProByEmail, hu]
    rfl
  · have hu2 : findUserByEmail (setProByEmail db e true) e
        = some ⟨u.id, u.email, true⟩ := by
      rw [findUserByEmail_setProByEmail, hu]; rfl
    have hu3 : findUserByEmail (setProByEmail db e false) e
        = some ⟨u.id, u.email, false⟩ := by
      rw [findUserByEmail_setProByEmail, hu]; rfl
    have s1 : (kiwify_webhook env req db).2 = setProByEmail db e true := by
      rw [kiwify_webhook_applied env req db p e true u ha hj he hd hu]
    have s2 : (kiwify_webhook env dreq (setProByEmail db e true)).2
        = setProByEmail db e false := by
      rw [kiwify_webhook_applied env dreq (setProByEmail db e true) dp e false
        ⟨u.id, u.email, true⟩ ha2 hj2 he2 hd2 hu2]
      exact setProByEmail_last_write db e true false
    have s3 : (kiwify_webhook env req (setProByEmail db e false)).2
        = setProByEmail db e true := by
      rw [kiwify_webhook_applied env req (setProByEmail db e false) p e true
        ⟨u.id, u.email, false⟩ ha hj he hd hu3]
      exact setProByEmail_last_write db e false true
    rw [s1, s2, s3]
  · intro i w hw hne
    rw [hmain]
    exact get_setFirstMatch_of_ne db.users e true i w hw (beq_eq_false_iff_ne.mpr hne)

/-- An authenticated activate notification for `a@b.com`. -/
def activateReq : KiwifyReq :=
  ⟨"", [], some (Json.obj [("email", Json.str "a@b.com"), ("status", Json.str "paid")])⟩

/-- An authenticated deactivate notification for `a@b.com`. -/
def deactivateReq : KiwifyReq :=
  ⟨"", [], some (Json.obj [("email", Json.str "a@b.com"), ("status", Json.str "refunded")])⟩

/-- Witness for C9: three repetitions of the activate notification on a
two-account database leave the first account entitled and the unrelated
account untouched. -/
theorem C9_witness :
    status_to_pro "paid" = some true ∧ status_to_pro "refunded" = some false ∧
    applyWebhookN unsignedEnv activateReq ⟨[⟨1, "a@b.com", false⟩, ⟨2, "c@d.com", false⟩], []⟩ 3
      = setProByEmail ⟨[⟨1, "a@b.com", false⟩, ⟨2, "c@d.com", false⟩], []⟩ "a@b.com" true ∧
    (applyWebhookN unsignedEnv activateReq
      ⟨[⟨1, "a@b.com", false⟩, ⟨2, "c@d.com", false⟩], []⟩ 3).users.get? 1
      = some ⟨2, "c@d.com", false⟩ := by
  have h := C9_idempotent_and_reversible unsignedEnv activateReq deactivateReq
    ⟨[⟨1, "a@b.com", false⟩, ⟨2, "c@d.com", false⟩], []⟩
    (Json.obj [("email", Json.str "a@b.com"), ("status", Json.str "paid")])
    (Json.obj [("email", Json.str "a@b.com"), ("status", Json.str "refunded")])
    "a@b.com" ⟨1, "a@b.com", false⟩ 3
    (by decide) rfl (by decide) (by decide) (by decide) rfl (by decide) (by decide)
    (by decide) (by decide)
  exact ⟨by decide, by decide, h.1, h.2.2.2 1 ⟨2, "c@d.com", false⟩ (by decide) (by decide)⟩

end FechaInstalacao
